import Mathlib

/-
Verification development for the sedcli argument parser (src/argp.c).

Shallow embedding conventions:
- C strings are modelled as List Char (no interior NUL bytes; the empty
  list is the empty string, and strempty tests for it).
- The NUL short-name sentinel (char 0) is modelled as Option Char: none
  stands for "no short name".
- Sentinel-terminated descriptor tables are modelled as Lean lists (the
  sentinel entry with a null long_name / name is the end of the list).
- The function-pointer callbacks options_parse / namespace_opts_parse are
  modelled as Lean functions returning the C int status; their invocation,
  the handle() invocation and the audit-log append are recorded in an
  explicit event trace, since these side effects are what several spec
  sentences are about.
- Memory allocation (args_list, the audit string buffer) is assumed to
  succeed; output (printf) is pure reporting and is not modelled beyond
  the identity of the error message that is printed.
-/

set_option linter.unusedVariables false

namespace Argp

/-- ASCII letter test used by the token classifier: mirrors the range
checks (c >= 'a' && c <= 'z') || (c >= 'A' && c <= 'Z') in
args_is_unrecognized (argp.c:377, 389). -/
def is_ascii_letter (c : Char) : Bool :=
  (decide ('a' ≤ c) && decide (c ≤ 'z')) || (decide ('A' ≤ c) && decide (c ≤ 'Z'))

/-- Token classifier, argp.c:367-396 (args_is_unrecognized). Returns true
when the token is neither a valid short-option form ('-' plus exactly one
ASCII letter) nor a valid long-option form ('-' '-' plus a leading ASCII
letter, trailing content unexamined). The empty string (strempty) is
unrecognized, as is a bare "-". -/
def args_is_unrecognized (cmd : List Char) : Bool :=
  match cmd with
  | c0 :: c1 :: rest2 =>
    if c0 = '-' then
      if is_ascii_letter c1 then
        !rest2.isEmpty
      else if c1 = '-' then
        match rest2 with
        | c2 :: _ => !(is_ascii_letter c2)
        | [] => true
      else true
    else true
  | _ => true

/-- Option/command matcher, argp.c:398-419 (args_is). A token matches a
descriptor with long name arg and short name c when it is "-c" exactly
(short form, only when a short name is present: C encodes absence as the
NUL character, guarded by 0 != c), or when it begins with "--" and the
remainder equals arg (strncmp bounded by MAX_STR_LEN; names are shorter
than that bound, so this is string equality). -/
def args_is (tok : List Char) (arg : List Char) (c : Option Char) : Bool :=
  match tok with
  | [] => false
  | t0 :: rest =>
    if t0 = '-' then
      (match c, rest with
       | some ch, [c1] => ch == c1
       | _, _ => false)
      ||
      (match rest with
       | '-' :: tail => tail == arg
       | _ => false)
    else false

/-- argp.c:421-424: is_help checks a token against --help / -H. -/
def is_help (tok : List Char) : Bool :=
  args_is tok "help".toList (some 'H')

/-- argp.c:426-429: is_version checks a token against --version / -V. -/
def is_version (tok : List Char) : Bool :=
  args_is tok "version".toList (some 'V')

/-- Flags of a cli_option descriptor: CLI_OPTION_REQUIRED,
CLI_OPTION_OPTIONAL, CLI_OPTION_HIDDEN. -/
structure option_flags where
  required : Bool
  optional : Bool
  hidden : Bool
deriving DecidableEq

/-- One option descriptor (struct cli_option): long name, optional short
name, optional argument label (arg != NULL means the option takes
argument tokens), flags, and args_count (max_arg_count: 0 = no cap
enforced, > 0 = hard cap, also read as an occurrence limit by the
cardinality pass). The desc field is display-only and omitted. -/
structure cli_option where
  long_name : List Char
  short_name : Option Char
  arg : Option (List Char)
  flags : option_flags
  args_count : Nat
deriving DecidableEq

/-- Flags of a cli_command: CLI_COMMAND_HIDDEN and CLI_SU_REQUIRED. -/
structure command_flags where
  hidden : Bool
  su_required : Bool
deriving DecidableEq

/-- One namespace entry (struct cli_ns_entry): name plus its own option
table. -/
structure cli_ns_entry where
  name : List Char
  options : List cli_option

/-- A command namespace (struct cli_namespace): the selector option's
long/short names and the entry table. -/
structure cli_namespace where
  long_name : List Char
  short_name : Option Char
  entries : List cli_ns_entry

/-- One command descriptor (struct cli_command). handle() is modelled by
the status it returns; configure by the status it would return (none when
the hook is absent); the parse callbacks as Lean functions. -/
structure cli_command where
  name : List Char
  short_name : Option Char
  flags : command_flags
  options : Option (List cli_option)
  nspace : Option cli_namespace
  options_parse : Option (List Char → List (List Char) → Int)
  namespace_opts_parse : Option (List Char → List Char → List (List Char) → Int)
  configure : Option Int
  handle : Int

/-- argp.c:144-151 (command_name_with_slash): renders "-c" slash "--long"
when a short name is present, "--long" otherwise. Used by the cardinality
error messages. -/
def command_name_with_slash (short_name : Option Char) (long_name : List Char) : List Char :=
  match short_name with
  | some c => '-' :: c :: '/' :: '-' :: '-' :: long_name
  | none => '-' :: '-' :: long_name

/-- argp.c:441-450 (get_option): first descriptor in table order matched
by args_is, none when no descriptor matches. -/
def get_option (options : List cli_option) (opt : List Char) : Option cli_option :=
  options.find? (fun o => args_is opt o.long_name o.short_name)

/-- The command-resolution loop of args_parse (argp.c:693-704): first
command whose name/short name matches the token via args_is. -/
def find_command (commands : List cli_command) (cmd_name : List Char) : Option cli_command :=
  commands.find? (fun c => args_is cmd_name c.name c.short_name)

/-- The stopping test of count_arg_params (argp.c:651): a token stops
argument consumption iff its first character is '-' and a second
character exists ('-' == argv[i][0] && 0 != argv[i][1]). -/
def is_arg_stopper (t : List Char) : Bool :=
  match t with
  | c0 :: _ :: _ => c0 == '-'
  | _ => false

/-- argp.c:646-656 (count_arg_params): number of leading tokens before
the first stopper (or all of them when none stops). -/
def count_arg_params (argv : List (List Char)) : Nat :=
  match argv with
  | [] => 0
  | t :: rest => if is_arg_stopper t then 0 else count_arg_params rest + 1

/-- The per-command body of configure_cli_commands (argp.c:658-669): when
the configure hook exists and returns a negative status, the command gets
the CLI_COMMAND_HIDDEN flag added; otherwise it is unchanged. -/
def configure_one (c : cli_command) : cli_command :=
  match c.configure with
  | some v => if v < 0 then { c with flags := { c.flags with hidden := true } } else c
  | none => c

/-- argp.c:658-669 (configure_cli_commands): runs every command's
configure hook, hiding those that return a negative status. -/
def configure_cli_commands (commands : List cli_command) : List cli_command :=
  commands.map configure_one

/-- The side effects of a parse that several spec sentences constrain:
callback invocations, the handle() call, and an actual audit-log file
append (emitted only when log_command's message passes vsedcli_log's
level filter). -/
inductive Event where
  | optionsParse (long_name : List Char) (args : List (List Char))
  | nsOptsParse (entry_name : List Char) (long_name : List Char) (args : List (List Char))
  | handleCall (short_name : Option Char)
  | auditLog
deriving DecidableEq

/-- The distinct fatal error messages args_parse can print before
returning FAILURE (argp.c:671-898), each with the data interpolated into
the message. -/
inductive ParseError where
  | noCommand
  | unrecognizedCommand (tok : List Char)
  | mustBeRoot
  | missingNsOption
  | missingNsName
  | unrecognizedNsOption
  | unrecognizedNsEntry
  | missingRequired (name : List Char)
  | tooManyTimes (name : List Char)
  | invalidFormat (tok : List Char)
  | unrecognizedOption (tok : List Char)
  | invalidNumberOfArgs (tok : List Char)
  | optionsHandling
  | internalError
deriving DecidableEq

/-- Result of one args_parse invocation. err carries the fatal error
(return value FAILURE, run_command never reached); helpGlobal and
helpCommand are the SUCCESS returns of the help short-circuits
(helpCommand records whether command help was actually rendered, which
is suppressed for hidden commands); ran s means run_command executed
handle() and it returned s. -/
inductive ParseOutcome where
  | err (e : ParseError)
  | helpGlobal
  | helpCommand (shown : Bool)
  | ran (status : Int)
deriving DecidableEq

/-- Which parse callback the consuming walk invokes (argp.c:864-877):
the command's flat options_parse, or namespace_opts_parse partially
applied to the active entry's name. -/
inductive CBInfo where
  | flat (f : List Char → List (List Char) → Int)
  | ns (entry_name : List Char) (f : List Char → List Char → List (List Char) → Int)

/-- Invoke a callback on an option's long name and argument list,
returning its status and the trace event of the call. -/
def invoke_cb (cb : CBInfo) (long_name : List Char) (args : List (List Char)) :
    Int × Event :=
  match cb with
  | .flat f => (f long_name args, .optionsParse long_name args)
  | .ns en f => (f en long_name args, .nsOptsParse en long_name args)

/-- Callback selection of argp.c:864-877: options_parse when present,
else namespace_opts_parse provided a namespace entry is active, else
none (the "Internal error" path). -/
def select_cb (c : cli_command) (entry : Option cli_ns_entry) : Option CBInfo :=
  match c.options_parse with
  | some f => some (.flat f)
  | none =>
    match c.namespace_opts_parse, entry with
    | some g, some e => some (.ns e.name g)
    | _, _ => none

/-- Occurrence count of the cardinality pass (argp.c:776-781): how many
tokens of the argument region match the descriptor by short or long
form. -/
def count_occurrences (region : List (List Char)) (o : cli_option) : Nat :=
  (region.filter (fun t => args_is t o.long_name o.short_name)).length

/-- The per-descriptor checks of the cardinality pass (argp.c:783-798):
a REQUIRED descriptor with zero occurrences is a missing-required error;
a descriptor with nonzero args_count occurring more often than args_count
is a too-many-times error; the error message names the option via
command_name_with_slash. -/
def check_option_cardinality (region : List (List Char)) (o : cli_option) :
    Option ParseError :=
  if o.flags.required && (count_occurrences region o == 0) then
    some (.missingRequired (command_name_with_slash o.short_name o.long_name))
  else if (!(o.args_count == 0)) && decide (o.args_count < count_occurrences region o) then
    some (.tooManyTimes (command_name_with_slash o.short_name o.long_name))
  else none

/-- The full cardinality pass (argp.c:772-798): descriptors are checked
in table order and the first violation is the reported error. -/
def cardinality_pass (opts : List cli_option) (region : List (List Char)) :
    Option ParseError :=
  match opts with
  | [] => none
  | o :: rest =>
    match check_option_cardinality region o with
    | some e => some e
    | none => cardinality_pass rest region

/-- One step plus recursion of the consuming walk (argp.c:809-887),
with explicit fuel for structural recursion; walk supplies fuel equal to
the region length, which is an upper bound since every iteration consumes
at least one token. Per token: invalid-format check, option lookup,
arity resolution (count_arg_params over the remaining tokens plus the
invalid test of argp.c:832-844), callback invocation (Internal error when
no callback is configured), and abort on nonzero callback status.
Returns the callback events emitted in order and the error, if any. -/
def walk_go (opts : List cli_option) (cb : Option CBInfo) :
    Nat → List (List Char) → List Event × Option ParseError
  | _, [] => ([], none)
  | 0, _ :: _ => ([], none)
  | fuel + 1, tok :: rest =>
    if args_is_unrecognized tok then ([], some (.invalidFormat tok))
    else
      match get_option opts tok with
      | none => ([], some (.unrecognizedOption tok))
      | some o =>
        if o.arg.isSome then
          let n := count_arg_params rest
          let invalid :=
            decide (0 < o.args_count) &&
              (((o.flags.required || o.flags.optional) && (n == 0)) ||
                decide (o.args_count < n))
          if invalid then ([], some (.invalidNumberOfArgs tok))
          else
            match cb with
            | none => ([], some .internalError)
            | some f =>
              let r := invoke_cb f o.long_name (rest.take n)
              if r.1 == 0 then
                let res := walk_go opts cb fuel (rest.drop n)
                (r.2 :: res.1, res.2)
              else ([r.2], some .optionsHandling)
        else
          match cb with
          | none => ([], some .internalError)
          | some f =>
            let r := invoke_cb f o.long_name []
            if r.1 == 0 then
              let res := walk_go opts cb fuel rest
              (r.2 :: res.1, res.2)
            else ([r.2], some .optionsHandling)

/-- The consuming walk over the whole argument region (argp.c:809-887). -/
def walk (opts : List cli_option) (cb : Option CBInfo) (region : List (List Char)) :
    List Event × Option ParseError :=
  walk_go opts cb region.length region

/-- Syslog numeric level LOG_WARNING (4, sys/syslog.h). -/
def LOG_WARNING : Nat := 4

/-- Syslog numeric level LOG_DEBUG (7, sys/syslog.h). -/
def LOG_DEBUG : Nat := 7

/-- argp.c:26: MAX_LOG_LEVEL is defined as LOG_WARNING. -/
def MAX_LOG_LEVEL : Nat := LOG_WARNING

/-- The level filter of vsedcli_log (argp.c:43-44): a message reaches
the log file only when its level does not exceed MAX_LOG_LEVEL (the
function returns 0 immediately otherwise); file open, lock and time
formatting are assumed to succeed. -/
def vsedcli_log_writes (log_level : Nat) : Bool :=
  decide (log_level ≤ MAX_LOG_LEVEL)

/-- argp.c:601-644 (run_command): invokes handle(), then calls
log_command unless the command's short name is 'V' (the version
command). log_command (argp.c:455-499) emits its audit line at
LOG_DEBUG (argp.c:494), so the line is actually appended only when
vsedcli_log's level filter passes that level; the auditLog event
records an actual append to the log file. The returned status is
handle's own. -/
def run_command (c : cli_command) : ParseOutcome × List Event :=
  (.ran c.handle,
   Event.handleCall c.short_name ::
     (if c.short_name = some 'V' then []
      else if vsedcli_log_writes LOG_DEBUG then [Event.auditLog] else []))

/-- The post-resolution stage of args_parse: once the active option table
(flat or namespace-entry), the callback and the argument region are
fixed, run the cardinality pass (argp.c:772-798), then the consuming
walk (argp.c:809-887), then run_command (argp.c:889) on full success.
A cardinality error is reported before any walk step runs. -/
def parse_options_stage (opts : List cli_option) (cb : Option CBInfo)
    (c : cli_command) (region : List (List Char)) : ParseOutcome × List Event :=
  match cardinality_pass opts region with
  | some e => (.err e, [])
  | none =>
    match walk opts cb region with
    | (evs, some e) => (.err e, evs)
    | (evs, none) =>
      let r := run_command c
      (r.1, evs ++ r.2)

/-- argp.c:671-898 (args_parse). argv includes the program name at index
0; uid models getuid(). Control flow in source order: argc check,
classifier check on argv[1], command resolution (with the global-help
fallback at the table sentinel), configure hooks, the --help or -H
short-circuit scanning positions >= 2 (help for a hidden command is
suppressed but still returns SUCCESS), the elevated-privilege check,
option-table resolution (flat table from position 2, or namespace
selector + entry from positions 2 and 3 with the table from position 4,
or direct run_command for bare commands), then parse_options_stage. -/
def args_parse (commands : List cli_command) (uid : Nat) (argv : List (List Char)) :
    ParseOutcome × List Event :=
  if argv.length < 2 then (.err .noCommand, [])
  else
    let cmd_name := argv.getD 1 []
    if args_is_unrecognized cmd_name then (.err (.unrecognizedCommand cmd_name), [])
    else
      match find_command commands cmd_name with
      | none =>
        if is_help cmd_name then (.helpGlobal, [])
        else (.err (.unrecognizedCommand cmd_name), [])
      | some c0 =>
        let c := configure_one c0
        if (argv.drop 2).any is_help then
          (.helpCommand (!c.flags.hidden), [])
        else if c.flags.su_required && !(uid == 0) then
          (.err .mustBeRoot, [])
        else
          match c.options with
          | some opts => parse_options_stage opts (select_cb c none) c (argv.drop 2)
          | none =>
            match c.nspace with
            | some ns =>
              if argv.length < 3 then (.err .missingNsOption, [])
              else if argv.length < 4 then (.err .missingNsName, [])
              else if !(args_is (argv.getD 2 []) ns.long_name ns.short_name) then
                (.err .unrecognizedNsOption, [])
              else
                match ns.entries.find? (fun e => e.name == argv.getD 3 []) with
                | none => (.err .unrecognizedNsEntry, [])
                | some e => parse_options_stage e.options (select_cb c (some e)) c (argv.drop 4)
            | none => run_command c

/-- Recognizer for the audit-log append event. -/
def is_audit_event : Event → Bool
  | .auditLog => true
  | _ => false

/-- Number of audit-log lines appended in a trace. -/
def countAudit (evs : List Event) : Nat :=
  (evs.filter is_audit_event).length

/-- Recognizer for the two cardinality errors (missing required option,
option supplied too many times). -/
def ParseError.isCardinality : ParseError → Bool
  | .missingRequired _ => true
  | .tooManyTimes _ => true
  | _ => false

/-- Spec-side short-option predicate, following the spec's words: a token
is a short option iff it is '-' followed by exactly one ASCII letter and
nothing else. -/
def spec_short_option (t : List Char) : Prop :=
  ∃ c, is_ascii_letter c = true ∧ t = ['-', c]

/-- Spec-side long-option predicate, following the spec's words: a token
is a long option iff it starts with '-' '-' followed by at least one
ASCII letter (trailing content not specially parsed). -/
def spec_long_option (t : List Char) : Prop :=
  ∃ c rest, is_ascii_letter c = true ∧ t = '-' :: '-' :: c :: rest

/-- Spec-side arity resolver, following the spec's words for claim C6:
consume subsequent tokens "stopping at the first token that classifies
as any option (short or long)", i.e. at the first token the classifier
recognizes. To be compared against count_arg_params, which is what the
code actually runs. -/
def spec_count_arg_params (argv : List (List Char)) : Nat :=
  match argv with
  | [] => 0
  | t :: rest =>
    if args_is_unrecognized t = false then 0 else spec_count_arg_params rest + 1

/-- Fixture: a REQUIRED option taking one argument (occurrence limit 1),
with both a short and a long form; shaped like the --pin options of the
real tables. -/
def fix_opt_pin : cli_option :=
  { long_name := "pin".toList, short_name := some 'p', arg := some "x".toList,
    flags := { required := true, optional := false, hidden := false },
    args_count := 1 }

/-- Fixture: a command with a flat option table holding fix_opt_pin and a
callback that always succeeds. -/
def fix_cmd_setup : cli_command :=
  { name := "setup".toList, short_name := some 's',
    flags := { hidden := false, su_required := false },
    options := some [fix_opt_pin], nspace := none,
    options_parse := some (fun _ _ => 0), namespace_opts_parse := none,
    configure := none, handle := 7 }

/-- Fixture: a non-REQUIRED option with args_count 0 and no argument
label. -/
def fix_opt_foo : cli_option :=
  { long_name := "foo".toList, short_name := none, arg := none,
    flags := { required := false, optional := false, hidden := false },
    args_count := 0 }

/-- Fixture: a command carrying fix_opt_foo. -/
def fix_cmd_foo : cli_command :=
  { name := "cmd".toList, short_name := none,
    flags := { hidden := false, su_required := false },
    options := some [fix_opt_foo], nspace := none,
    options_parse := some (fun _ _ => 0), namespace_opts_parse := none,
    configure := none, handle := 0 }

/-- Fixture: a bare-action command (no option table, no namespace) whose
configure hook returns a negative status, hiding it retroactively. -/
def fix_cmd_bare_hidden : cli_command :=
  { name := "bare".toList, short_name := some 'b',
    flags := { hidden := false, su_required := false },
    options := none, nspace := none,
    options_parse := none, namespace_opts_parse := none,
    configure := some (-1), handle := 3 }

end Argp

namespace Argp

/-! Helper lemmas shared by the claim theorems. -/

/-- When no token of the list stops argument consumption,
count_arg_params consumes the whole list. -/
theorem count_arg_params_of_no_stopper (l : List (List Char))
    (h : ∀ t ∈ l, is_arg_stopper t = false) :
    count_arg_params l = l.length := by
  induction l with
  | nil => rfl
  | cons t rest ih =>
    have ht : is_arg_stopper t = false := h t (by simp)
    simp [count_arg_params, ht, ih fun t' ht' => h t' (by simp [ht'])]

/-- A descriptor matched by no token of the region has occurrence count
zero. -/
theorem count_occurrences_eq_zero (region : List (List Char)) (o : cli_option)
    (h : ∀ t ∈ region, args_is t o.long_name o.short_name = false) :
    count_occurrences region o = 0 := by
  unfold count_occurrences
  rw [List.filter_eq_nil_iff.mpr (fun t ht => by simp [h t ht])]
  rfl

/-- A descriptor occurring exactly once raises no cardinality error:
the required check sees a nonzero count and the occurrence limit, being
a nonzero Nat when enforced at all, cannot be exceeded by one
occurrence. -/
theorem check_option_cardinality_of_one (region : List (List Char)) (o : cli_option)
    (h : count_occurrences region o = 1) :
    check_option_cardinality region o = none := by
  unfold check_option_cardinality
  rw [h]
  rcases hn : o.args_count with _ | m
  · simp
  · simp [Nat.succ_le_succ]

/-- The cardinality pass reports the violation of a descriptor all of
whose table-mates pass their checks. -/
theorem cardinality_pass_first (opts : List cli_option) (region : List (List Char))
    (o : cli_option) (e : ParseError)
    (ho : o ∈ opts)
    (hchk : check_option_cardinality region o = some e)
    (hothers : ∀ o' ∈ opts, o' ≠ o → check_option_cardinality region o' = none) :
    cardinality_pass opts region = some e := by
  induction opts with
  | nil => cases ho
  | cons p rest ih =>
    by_cases hp : p = o
    · subst hp
      simp [cardinality_pass, hchk]
    · have hnone : check_option_cardinality region p = none :=
        hothers p (by simp) hp
      have ho' : o ∈ rest := by
        cases ho with
        | head => exact absurd rfl hp
        | tail _ h => exact h
      simp [cardinality_pass, hnone,
        ih ho' fun o' ho'' hne => hothers o' (by simp [ho'']) hne]

/-- Every error produced by the per-descriptor check is one of the two
cardinality errors. -/
theorem check_option_cardinality_isCardinality (region : List (List Char))
    (o : cli_option) (e : ParseError)
    (h : check_option_cardinality region o = some e) :
    e.isCardinality = true := by
  unfold check_option_cardinality at h
  split at h
  · cases h; rfl
  · split at h
    · cases h; rfl
    · cases h

/-- Every error produced by the cardinality pass is one of the two
cardinality errors. -/
theorem cardinality_pass_isCardinality (opts : List cli_option)
    (region : List (List Char)) (e : ParseError)
    (h : cardinality_pass opts region = some e) :
    e.isCardinality = true := by
  induction opts with
  | nil => cases h
  | cons p rest ih =>
    unfold cardinality_pass at h
    revert h
    rcases hp : check_option_cardinality region p with _ | e'
    · exact fun h => ih h
    · intro h
      cases h
      exact check_option_cardinality_isCardinality region p e hp

/-- When the invocation resolves to a command with a flat option table,
contains no help token from position 2 on, and passes the privilege
check, args_parse proceeds to the post-resolution stage with the
command's table and the region starting at position 2
(argp.c:728-730). -/
theorem args_parse_flat (cmds : List cli_command) (uid : Nat) (argv : List (List Char))
    (c0 : cli_command) (opts : List cli_option)
    (hlen : 2 ≤ argv.length)
    (hrec : args_is_unrecognized (argv.getD 1 []) = false)
    (hfind : find_command cmds (argv.getD 1 []) = some c0)
    (hnohelp : (argv.drop 2).any is_help = false)
    (hsu : (configure_one c0).flags.su_required = false ∨ uid = 0)
    (hopts : (configure_one c0).options = some opts) :
    args_parse cmds uid argv =
      parse_options_stage opts (select_cb (configure_one c0) none)
        (configure_one c0) (argv.drop 2) := by
  have hsub : ((configure_one c0).flags.su_required && !(uid == 0)) = false := by
    rcases hsu with h | h
    · simp [h]
    · simp [h]
  unfold args_parse
  rw [if_neg (by omega : ¬ argv.length < 2)]
  simp only [hrec, hfind, hnohelp, hsub, hopts, Bool.false_eq_true, if_false]

/-- C7: token classification. A token is recognized (args_is_unrecognized
returns false) iff it is a short option in the spec's sense ('-' plus
exactly one ASCII letter and nothing else) or a long option in the spec's
sense ('-' '-' plus at least one leading ASCII letter, trailing content
unexamined). Every other token, including the empty string, a bare "-",
'-' plus a digit or symbol, and "--" plus a non-letter, is unrecognized. -/
theorem token_classification_spec (t : List Char) :
    args_is_unrecognized t = false ↔ (spec_short_option t ∨ spec_long_option t) := by
  unfold spec_short_option spec_long_option
  match t with
  | [] => simp [args_is_unrecognized]
  | [c0] => simp [args_is_unrecognized]
  | c0 :: c1 :: rest =>
    simp only [args_is_unrecognized]
    by_cases h0 : c0 = '-'
    · subst h0
      rw [if_pos rfl]
      by_cases h1 : is_ascii_letter c1 = true
      · rw [if_pos h1]
        cases rest with
        | nil =>
          constructor
          · intro _
            exact Or.inl ⟨c1, h1, rfl⟩
          · intro _
            decide
        | cons c2 rest2 =>
          constructor
          · intro h
            simp at h
          · rintro (⟨c, _, hc⟩ | ⟨c, r, hc, heq⟩)
            · simp at hc
            · injection heq with h1' h2'
              injection h2' with h1'' _
              rw [h1''] at h1
              simp [is_ascii_letter] at h1
      · rw [if_neg h1]
        by_cases h2 : c1 = '-'
        · subst h2
          rw [if_pos rfl]
          cases rest with
          | nil =>
            constructor
            · intro h
              cases h
            · rintro (⟨c, hc, heq⟩ | ⟨c, r, hc, heq⟩)
              · injection heq with _ h2'
                injection h2' with h2'' _
                rw [← h2''] at hc
                exact absurd hc h1
              · cases heq
          | cons c2 rest2 =>
            constructor
            · intro h
              dsimp only at h
              refine Or.inr ⟨c2, rest2, ?_, rfl⟩
              cases hc2 : is_ascii_letter c2 with
              | true => rfl
              | false => rw [hc2] at h; cases h
            · rintro (⟨c, hc, heq⟩ | ⟨c, r, hc, heq⟩)
              · cases heq
              · injection heq with _ h2'
                injection h2' with _ h3'
                injection h3' with h4' _
                show (!is_ascii_letter c2) = false
                rw [h4', hc]
                rfl
        · rw [if_neg h2]
          constructor
          · intro h
            cases h
          · rintro (⟨c, hc, heq⟩ | ⟨c, r, hc, heq⟩)
            · injection heq with _ h2'
              injection h2' with h2'' _
              rw [← h2''] at hc
              exact absurd hc h1
            · injection heq with _ h2'
              injection h2' with h2'' _
              exact absurd h2'' h2
    · rw [if_neg h0]
      constructor
      · intro h
        cases h
      · rintro (⟨c, hc, heq⟩ | ⟨c, r, hc, heq⟩)
        · injection heq with h0' _
          exact absurd h0' h0
        · injection heq with h0' _
          exact absurd h0' h0

/-- C1: a REQUIRED descriptor of the active option table that no token
of the argument region matches (by short or long form) makes args_parse
fail with the missing-required-option error naming the option via
command_name_with_slash, which spells out both forms when a short name
exists; the event trace is empty, so neither a parse callback nor
handle() is ever invoked. A descriptor supplied exactly once (all other
descriptors satisfying their own cardinality constraints, which the
hothers hypothesis captures) raises no cardinality error. -/
theorem required_missing_rejected
    (cmds : List cli_command) (uid : Nat) (argv : List (List Char))
    (c0 : cli_command) (opts : List cli_option) (d : cli_option)
    (region' : List (List Char))
    (hlen : 2 ≤ argv.length)
    (hrec : args_is_unrecognized (argv.getD 1 []) = false)
    (hfind : find_command cmds (argv.getD 1 []) = some c0)
    (hnohelp : (argv.drop 2).any is_help = false)
    (hsu : (configure_one c0).flags.su_required = false ∨ uid = 0)
    (hopts : (configure_one c0).options = some opts)
    (hd : d ∈ opts)
    (hreq : d.flags.required = true)
    (habsent : ∀ t ∈ argv.drop 2, args_is t d.long_name d.short_name = false)
    (hothers : ∀ d' ∈ opts, d' ≠ d → check_option_cardinality (argv.drop 2) d' = none)
    (honce : count_occurrences region' d = 1) :
    args_parse cmds uid argv
        = (.err (.missingRequired (command_name_with_slash d.short_name d.long_name)), [])
      ∧ (∀ ch, d.short_name = some ch →
          command_name_with_slash d.short_name d.long_name
            = '-' :: ch :: '/' :: '-' :: '-' :: d.long_name)
      ∧ check_option_cardinality region' d = none := by
  have hcount : count_occurrences (argv.drop 2) d = 0 :=
    count_occurrences_eq_zero _ _ habsent
  have hchk : check_option_cardinality (argv.drop 2) d
      = some (.missingRequired (command_name_with_slash d.short_name d.long_name)) := by
    unfold check_option_cardinality
    rw [hcount, hreq]
    rfl
  have hpass := cardinality_pass_first opts (argv.drop 2) d _ hd hchk hothers
  refine ⟨?_, ?_, check_option_cardinality_of_one region' d honce⟩
  · rw [args_parse_flat cmds uid argv c0 opts hlen hrec hfind hnohelp hsu hopts]
    unfold parse_options_stage
    rw [hpass]
  · intro ch hch
    rw [hch]
    rfl

/-- C1 witness: a command with one REQUIRED option -p slash --pin invoked
with no option tokens at all is rejected with the missing-required
error naming both forms, handle() never runs, and a region holding one
occurrence raises no cardinality error. -/
theorem required_missing_rejected_witness :
    args_parse [fix_cmd_setup] 0 ["sedcli".toList, "--setup".toList]
        = (.err (.missingRequired ('-' :: 'p' :: '/' :: '-' :: '-' :: "pin".toList)), [])
      ∧ command_name_with_slash (some 'p') "pin".toList
          = '-' :: 'p' :: '/' :: '-' :: '-' :: "pin".toList
      ∧ check_option_cardinality [['-', 'p']] fix_opt_pin = none := by
  have h := required_missing_rejected [fix_cmd_setup] 0
    ["sedcli".toList, "--setup".toList] fix_cmd_setup [fix_opt_pin] fix_opt_pin
    [['-', 'p']] (by decide) (by decide) rfl (by decide) (Or.inl rfl) rfl
    (by decide) rfl (by decide) (by decide) (by decide)
  exact ⟨h.1, h.2.1 'p' rfl, h.2.2⟩

/-- C3: a descriptor with nonzero args_count (read as an occurrence
limit) matched by more than args_count tokens of the region makes
args_parse fail with the too-many-times error (all other descriptors
satisfying their own cardinality constraints), with an empty event
trace; occurring exactly args_count times raises no cardinality
error. -/
theorem too_many_occurrences_rejected
    (cmds : List cli_command) (uid : Nat) (argv : List (List Char))
    (c0 : cli_command) (opts : List cli_option) (d : cli_option)
    (region' : List (List Char))
    (hlen : 2 ≤ argv.length)
    (hrec : args_is_unrecognized (argv.getD 1 []) = false)
    (hfind : find_command cmds (argv.getD 1 []) = some c0)
    (hnohelp : (argv.drop 2).any is_help = false)
    (hsu : (configure_one c0).flags.su_required = false ∨ uid = 0)
    (hopts : (configure_one c0).options = some opts)
    (hd : d ∈ opts)
    (hm : d.args_count ≠ 0)
    (hcount : d.args_count < count_occurrences (argv.drop 2) d)
    (hothers : ∀ d' ∈ opts, d' ≠ d → check_option_cardinality (argv.drop 2) d' = none)
    (hexact : count_occurrences region' d = d.args_count) :
    args_parse cmds uid argv
        = (.err (.tooManyTimes (command_name_with_slash d.short_name d.long_name)), [])
      ∧ check_option_cardinality region' d = none := by
  have hkpos : count_occurrences (argv.drop 2) d ≠ 0 := by omega
  have hchk : check_option_cardinality (argv.drop 2) d
      = some (.tooManyTimes (command_name_with_slash d.short_name d.long_name)) := by
    unfold check_option_cardinality
    have e0 : (count_occurrences (argv.drop 2) d == 0) = false := by
      simpa using hkpos
    have e1 : (d.args_count == 0) = false := by simpa using hm
    have e2 : decide (d.args_count < count_occurrences (argv.drop 2) d) = true := by
      simpa using hcount
    rw [e0, e1, e2]
    simp
  have hpass := cardinality_pass_first opts (argv.drop 2) d _ hd hchk hothers
  have hsecond : check_option_cardinality region' d = none := by
    unfold check_option_cardinality
    have e0 : (d.args_count == 0) = false := by simpa using hm
    have e1 : decide (d.args_count < d.args_count) = false := by simp
    rw [hexact, e0, e1]
    simp
  refine ⟨?_, hsecond⟩
  rw [args_parse_flat cmds uid argv c0 opts hlen hrec hfind hnohelp hsu hopts]
  unfold parse_options_stage
  rw [hpass]

/-- C3 witness: the --pin option (limit 1) supplied twice, once long and
once short, each occurrence with valid arity, is rejected with the
too-many-times error; a region holding exactly one occurrence raises no
cardinality error. -/
theorem too_many_occurrences_rejected_witness :
    args_parse [fix_cmd_setup] 0
        ["sedcli".toList, "--setup".toList, "--pin".toList, "a".toList,
         "-p".toList, "b".toList]
        = (.err (.tooManyTimes ('-' :: 'p' :: '/' :: '-' :: '-' :: "pin".toList)), [])
      ∧ check_option_cardinality [['-', 'p']] fix_opt_pin = none := by
  have h := too_many_occurrences_rejected [fix_cmd_setup] 0
    ["sedcli".toList, "--setup".toList, "--pin".toList, "a".toList,
     "-p".toList, "b".toList] fix_cmd_setup [fix_opt_pin] fix_opt_pin
    [['-', 'p']] (by decide) (by decide) rfl (by decide) (Or.inl rfl) rfl
    (by decide) (by decide) (by decide) (by decide) (by decide)
  exact h

/-- C2: an option that declares an argument label and has args_count
k > 0, matched once at the head of the region and followed by k + 1
tokens none of which stops argument consumption, makes the
post-resolution stage (cardinality having passed) fail with the
invalid-number-of-arguments arity error before any callback runs;
with exactly k such tokens the consuming walk never produces that
arity error. -/
theorem arity_overflow_rejected
    (opts : List cli_option) (cb : Option CBInfo) (c : cli_command)
    (o : cli_option) (optTok : List Char)
    (free1 free2 : List (List Char)) (k : Nat)
    (hk : o.args_count = k) (hkpos : 0 < k)
    (harg : o.arg.isSome = true)
    (hrec : args_is_unrecognized optTok = false)
    (hmatch : get_option opts optTok = some o)
    (hfree1 : ∀ t ∈ free1, is_arg_stopper t = false)
    (hfree2 : ∀ t ∈ free2, is_arg_stopper t = false)
    (hlen1 : free1.length = k + 1) (hlen2 : free2.length = k)
    (hcard : cardinality_pass opts (optTok :: free1) = none) :
    parse_options_stage opts cb c (optTok :: free1)
        = (.err (.invalidNumberOfArgs optTok), [])
      ∧ (walk opts cb (optTok :: free2)).2 ≠ some (.invalidNumberOfArgs optTok) := by
  have hn1 : count_arg_params free1 = k + 1 := by
    rw [count_arg_params_of_no_stopper free1 hfree1, hlen1]
  have hn2 : count_arg_params free2 = k := by
    rw [count_arg_params_of_no_stopper free2 hfree2, hlen2]
  have hinv1 : (decide (0 < o.args_count) &&
      (((o.flags.required || o.flags.optional) && (count_arg_params free1 == 0)) ||
        decide (o.args_count < count_arg_params free1))) = true := by
    have e1 : decide (0 < o.args_count) = true := by simp [hk, hkpos]
    have e2 : decide (o.args_count < count_arg_params free1) = true := by
      simp [hk, hn1]
    rw [e1, e2]
    simp
  have hinv2 : (decide (0 < o.args_count) &&
      (((o.flags.required || o.flags.optional) && (count_arg_params free2 == 0)) ||
        decide (o.args_count < count_arg_params free2))) = false := by
    have e1 : (count_arg_params free2 == 0) = false := by
      simp [hn2]
      omega
    have e2 : decide (o.args_count < count_arg_params free2) = false := by
      simp [hk, hn2]
    rw [e1, e2]
    simp
  constructor
  · unfold parse_options_stage
    rw [hcard]
    have hw : walk opts cb (optTok :: free1) = ([], some (.invalidNumberOfArgs optTok)) := by
      show walk_go opts cb (free1.length + 1) (optTok :: free1) = _
      unfold walk_go
      rw [hrec, hmatch]
      simp only [Bool.false_eq_true, if_false]
      rw [if_pos harg, if_pos hinv1]
    rw [hw]
  · show (walk_go opts cb (free2.length + 1) (optTok :: free2)).2 ≠ _
    unfold walk_go
    rw [hrec, hmatch]
    simp only [Bool.false_eq_true, if_false]
    rw [if_pos harg, if_neg (by simp [hinv2])]
    match cb with
    | none => simp
    | some f =>
      dsimp only
      rcases hst : ((invoke_cb f o.long_name
          (free2.take (count_arg_params free2))).1 == 0) with _ | _
      · simp
      · have hdrop : free2.drop (count_arg_params free2) = [] := by
          rw [hn2, ← hlen2, List.drop_length]
        rw [hdrop]
        simp [walk_go]

/-- C2 witness: --pin with args_count 1 followed by two free tokens is an
arity error at the stage level; followed by one free token the walk does
not produce the arity error. -/
theorem arity_overflow_rejected_witness :
    parse_options_stage [fix_opt_pin] none fix_cmd_setup
        ["--pin".toList, "a".toList, "b".toList]
        = (.err (.invalidNumberOfArgs "--pin".toList), [])
      ∧ (walk [fix_opt_pin] none ["--pin".toList, "a".toList]).2
          ≠ some (.invalidNumberOfArgs "--pin".toList) :=
  arity_overflow_rejected [fix_opt_pin] none fix_cmd_setup fix_opt_pin
    "--pin".toList ["a".toList, "b".toList] ["a".toList] 1
    rfl (by decide) rfl (by decide) rfl (by decide) (by decide)
    (by decide) (by decide) (by decide)

/-- Shared helper: when the first token resolves to a registered command
and some token from position 2 on is a help token, args_parse takes the
help branch of argp.c:714-719 and returns the help outcome with an empty
trace. -/
theorem args_parse_help_branch
    (cmds : List cli_command) (uid : Nat) (argv : List (List Char))
    (c0 : cli_command) (tok : List Char)
    (hrec : args_is_unrecognized (argv.getD 1 []) = false)
    (hfind : find_command cmds (argv.getD 1 []) = some c0)
    (htok : tok ∈ argv.drop 2) (hhelp : is_help tok = true) :
    args_parse cmds uid argv
      = (.helpCommand (!(configure_one c0).flags.hidden), []) := by
  have hlen : ¬ argv.length < 2 := by
    have hpos : 0 < (argv.drop 2).length :=
      List.length_pos.mpr (List.ne_nil_of_mem htok)
    rw [List.length_drop] at hpos
    omega
  have hany : (argv.drop 2).any is_help = true :=
    List.any_eq_true.mpr ⟨tok, htok, hhelp⟩
  unfold args_parse
  rw [if_neg hlen]
  simp only [hrec, hfind, hany, Bool.false_eq_true, if_false, if_true]

/-- C4: when the first token resolves to a registered command and any
token from position 2 on is --help or -H, args_parse short-circuits to
the help outcome (a SUCCESS return) with an empty event trace: no parse
callback and no handle() call occurs, regardless of every other token in
the stream. -/
theorem help_short_circuits
    (cmds : List cli_command) (uid : Nat) (argv : List (List Char))
    (c0 : cli_command) (tok : List Char)
    (hrec : args_is_unrecognized (argv.getD 1 []) = false)
    (hfind : find_command cmds (argv.getD 1 []) = some c0)
    (htok : tok ∈ argv.drop 2) (hhelp : is_help tok = true) :
    args_parse cmds uid argv
      = (.helpCommand (!(configure_one c0).flags.hidden), []) :=
  args_parse_help_branch cmds uid argv c0 tok hrec hfind htok hhelp

/-- C4 witness: a command invocation carrying an invalid token and a
--help token returns the help outcome with no callback or handle
events. -/
theorem help_short_circuits_witness :
    args_parse [fix_cmd_foo] 0
        ["sedcli".toList, "--cmd".toList, "!!!".toList, "--help".toList]
      = (.helpCommand true, []) :=
  help_short_circuits [fix_cmd_foo] 0
    ["sedcli".toList, "--cmd".toList, "!!!".toList, "--help".toList]
    fix_cmd_foo "--help".toList (by decide) rfl (by decide) (by decide)

/-- C5: a cardinality violation is reported before the consuming walk
runs at all: whenever the cardinality pass over the region yields an
error, the post-resolution stage returns exactly that error with an
empty trace, even when the region contains a token the walk would have
rejected as invalid-format, and the reported error is one of the two
cardinality errors. -/
theorem cardinality_before_walk
    (opts : List cli_option) (cb : Option CBInfo) (c : cli_command)
    (region : List (List Char)) (e : ParseError) (t : List Char)
    (hcard : cardinality_pass opts region = some e)
    (ht : t ∈ region) (hbad : args_is_unrecognized t = true) :
    parse_options_stage opts cb c region = (.err e, []) ∧ e.isCardinality = true := by
  refine ⟨?_, cardinality_pass_isCardinality opts region e hcard⟩
  unfold parse_options_stage
  rw [hcard]

/-- C5 witness: a region whose only token is the invalid-format "-!"
while the required --pin option is missing reports the cardinality
error, not the invalid-format error. -/
theorem cardinality_before_walk_witness :
    parse_options_stage [fix_opt_pin] none fix_cmd_setup [['-', '!']]
        = (.err (.missingRequired ('-' :: 'p' :: '/' :: '-' :: '-' :: "pin".toList)), [])
      ∧ (ParseError.missingRequired
          ('-' :: 'p' :: '/' :: '-' :: '-' :: "pin".toList)).isCardinality = true :=
  cardinality_before_walk [fix_opt_pin] none fix_cmd_setup [['-', '!']]
    (.missingRequired ('-' :: 'p' :: '/' :: '-' :: '-' :: "pin".toList))
    ['-', '!'] (by decide) (by decide) (by decide)

/-- C6 counterexample: the claim that argument consumption stops exactly
at the first token that classifies as an option, and that no argument
value can begin with '-', is false on the code. The token "-9" does not
classify as an option (args_is_unrecognized is true), yet count_arg_params
stops at it (consumes 0 tokens where the spec-side resolver consumes 1);
and the bare token "-" is consumed as an argument although it begins
with '-'. -/
theorem arg_consumption_claim_false :
    count_arg_params [['-', '9']] = 0
      ∧ spec_count_arg_params [['-', '9']] = 1
      ∧ args_is_unrecognized ['-', '9'] = true
      ∧ count_arg_params [['-']] = 1
      ∧ List.head? ['-'] = some '-' := by
  decide

/-- C6 amended: the tokens consumed as an option's arguments are exactly
the longest prefix of subsequent tokens in which no token both starts
with '-' and has at least two characters (the stopping rule of
count_arg_params, argp.c:651); consequently the only consumable argument
token beginning with '-' is the bare single-character token "-". -/
theorem arg_consumption_characterization (l : List (List Char)) :
    count_arg_params l = (l.takeWhile (fun t => !is_arg_stopper t)).length
      ∧ ∀ t ∈ l.take (count_arg_params l), t.head? = some '-' → t = ['-'] := by
  induction l with
  | nil => exact ⟨rfl, by simp⟩
  | cons t rest ih =>
    cases hs : is_arg_stopper t with
    | true =>
      refine ⟨?_, ?_⟩
      · simp [count_arg_params, hs, List.takeWhile_cons, List.length_nil]
      · simp [count_arg_params, hs]
    | false =>
      refine ⟨?_, ?_⟩
      · simp [count_arg_params, hs, List.takeWhile_cons, ih.1]
      · intro u hu hhead
        rw [show count_arg_params (t :: rest) = count_arg_params rest + 1 by
              simp [count_arg_params, hs]] at hu
        rw [List.take_succ_cons] at hu
        cases hu with
        | head =>
          match t, hs, hhead with
          | c0 :: tail, hs, hhead =>
            injection hhead with hc0
            subst hc0
            match tail, hs with
            | [], _ => rfl
            | c1 :: tail2, hs => simp [is_arg_stopper] at hs
        | tail _ hmem => exact ih.2 u hmem hhead

/-- C6 amended witness: at the concrete list [ "-" ] the consumed count
is the takeWhile length and the consumed '-'-initial token is the bare
dash. -/
theorem arg_consumption_characterization_witness :
    count_arg_params [['-']]
        = (([['-']] : List (List Char)).takeWhile (fun t => !is_arg_stopper t)).length
      ∧ (['-'] : List Char) = ['-'] :=
  ⟨(arg_consumption_characterization [['-']]).1,
   (arg_consumption_characterization [['-']]).2 ['-'] (by decide) rfl⟩

/-- A callback invocation never produces the audit-log event. -/
theorem invoke_cb_not_audit (f : CBInfo) (ln : List Char) (args : List (List Char)) :
    is_audit_event (invoke_cb f ln args).2 = false := by
  cases f <;> rfl

/-- Prepending a non-audit event leaves the audit count unchanged. -/
theorem countAudit_cons_not (x : Event) (l : List Event)
    (h : is_audit_event x = false) :
    countAudit (x :: l) = countAudit l := by
  simp [countAudit, List.filter_cons, h]

/-- The audit count of a concatenation is the sum of the parts. -/
theorem countAudit_append (a b : List Event) :
    countAudit (a ++ b) = countAudit a + countAudit b := by
  simp [countAudit, List.filter_append]

/-- The consuming walk appends no audit-log line: its trace holds only
callback events. -/
theorem walk_go_countAudit (opts : List cli_option) (cb : Option CBInfo) :
    ∀ fuel l, countAudit (walk_go opts cb fuel l).1 = 0 := by
  intro fuel
  induction fuel with
  | zero =>
    intro l
    cases l <;> rfl
  | succ n ih =>
    intro l
    cases l with
    | nil => rfl
    | cons tok rest =>
      unfold walk_go
      dsimp only
      split
      · rfl
      · split
        · rfl
        · split
          · split
            · rfl
            · split
              · rfl
              · split
                · rw [countAudit_cons_not _ _ (invoke_cb_not_audit _ _ _)]
                  exact ih _
                · rw [countAudit_cons_not _ _ (invoke_cb_not_audit _ _ _)]
                  rfl
          · split
            · rfl
            · split
              · rw [countAudit_cons_not _ _ (invoke_cb_not_audit _ _ _)]
                exact ih _
              · rw [countAudit_cons_not _ _ (invoke_cb_not_audit _ _ _)]
                rfl

/-- run_command appends no audit line at all: log_command emits at
LOG_DEBUG, which exceeds MAX_LOG_LEVEL, so vsedcli_log drops the
message on every path (version command or not). -/
theorem run_command_countAudit (c : cli_command) :
    countAudit (run_command c).2 = 0 := by
  unfold run_command
  dsimp only
  rw [countAudit_cons_not (Event.handleCall c.short_name) _ rfl]
  split
  · rfl
  · rfl

/-- The post-resolution stage appends no audit line: error paths carry
only walk events and the success path adds run_command's events, none
of which is an audit append. -/
theorem parse_options_stage_countAudit (opts : List cli_option) (cb : Option CBInfo)
    (c : cli_command) (region : List (List Char)) :
    countAudit (parse_options_stage opts cb c region).2 = 0 := by
  have hwalk : countAudit (walk opts cb region).1 = 0 :=
    walk_go_countAudit opts cb region.length region
  unfold parse_options_stage
  rcases hc : cardinality_pass opts region with _ | e <;> simp only [hc]
  · rcases hw : walk opts cb region with ⟨wevs, werr⟩
    rw [hw] at hwalk
    rcases werr with _ | e <;> simp only [hw]
    · show countAudit (wevs ++ (run_command c).2) = 0
      rw [countAudit_append, run_command_countAudit]
      simpa using hwalk
    · exact hwalk
  · rfl

/-- No invocation of args_parse ever appends an audit-log line: every
branch returns either an empty trace, walk events, or run_command's
events, and run_command's LOG_DEBUG message is dropped by the level
filter. -/
theorem args_parse_countAudit (cmds : List cli_command) (uid : Nat)
    (argv : List (List Char)) :
    countAudit (args_parse cmds uid argv).2 = 0 := by
  unfold args_parse
  by_cases h1 : argv.length < 2
  · rw [if_pos h1]
    rfl
  rw [if_neg h1]
  by_cases h2 : args_is_unrecognized (argv.getD 1 []) = true
  · rw [if_pos h2]
    rfl
  rw [if_neg h2]
  rcases hf : find_command cmds (argv.getD 1 []) with _ | c0 <;> simp only [hf]
  · by_cases h3 : is_help (argv.getD 1 []) = true
    · rw [if_pos h3]
      rfl
    · rw [if_neg h3]
      rfl
  · by_cases h4 : (argv.drop 2).any is_help = true
    · rw [if_pos h4]
      rfl
    rw [if_neg h4]
    by_cases h5 : ((configure_one c0).flags.su_required && !(uid == 0)) = true
    · rw [if_pos h5]
      rfl
    rw [if_neg h5]
    rcases ho : (configure_one c0).options with _ | opts <;> simp only [ho]
    · rcases hn : (configure_one c0).nspace with _ | ns <;> simp only [hn]
      · exact run_command_countAudit _
      · by_cases h6 : argv.length < 3
        · rw [if_pos h6]
          rfl
        rw [if_neg h6]
        by_cases h7 : argv.length < 4
        · rw [if_pos h7]
          rfl
        rw [if_neg h7]
        by_cases h8 : (!(args_is (argv.getD 2 []) ns.long_name ns.short_name)) = true
        · rw [if_pos h8]
          rfl
        rw [if_neg h8]
        rcases he : ns.entries.find? (fun e => e.name == argv.getD 3 []) with _ | e <;>
          simp only [he]
        · rfl
        · exact parse_options_stage_countAudit _ _ _ _
    · exact parse_options_stage_countAudit _ _ _ _

/-- C9: the claim says exactly one audit-log line is appended per
invocation that reaches command execution (version command exempted);
in this source the line is never appended at all. log_command emits the
audit message at LOG_DEBUG (argp.c:494) and vsedcli_log returns before
writing for any level above MAX_LOG_LEVEL, which is LOG_WARNING
(argp.c:26,43), so the level filter provably rejects the audit message;
at a concrete invocation that reaches command execution (handle() runs,
returning 7) the trace holds the callback and handle events but no
audit append; and across all commands, uids and argument vectors the
audit count of an invocation's trace is zero. -/
theorem audit_line_never_appended :
    vsedcli_log_writes LOG_DEBUG = false
      ∧ args_parse [fix_cmd_setup] 0
          ["sedcli".toList, "--setup".toList, "--pin".toList, "a".toList]
          = (.ran 7, [.optionsParse "pin".toList ["a".toList], .handleCall (some 's')])
      ∧ ∀ cmds uid argv, countAudit (args_parse cmds uid argv).2 = 0 :=
  ⟨by decide, by decide, args_parse_countAudit⟩

/-- C8: the claim (and the comment right above the cardinality pass,
argp.c:768-771) says a non-REQUIRED option with no explicit repetition
allowance (args_count 0) may appear at most once; the code only enforces
the occurrence limit when args_count is nonzero, so this invocation,
which supplies --foo twice for a non-required args_count-0 descriptor,
is accepted: both occurrences are forwarded to options_parse and
handle() runs. -/
theorem duplicate_optional_option_accepted :
    args_parse [fix_cmd_foo] 0
        ["sedcli".toList, "--cmd".toList, "--foo".toList, "--foo".toList]
      = (.ran 0,
         [.optionsParse "foo".toList [], .optionsParse "foo".toList [],
          .handleCall none]) := by
  decide

/-- C10: hiding never prevents dispatch. First, a configure hook
returning a negative status marks the command hidden (argp.c:658-669).
Second, a help request for a command that is hidden (whether by its
static flag or retroactively by configure) still returns the SUCCESS
help outcome, merely with the command-help rendering suppressed (shown
is false, argp.c:714-719). Third, a hidden bare-action command resolved
by name with no help token, passing the privilege check, dispatches to
run_command exactly as an unhidden one would: command matching and
execution never consult the hidden flag. -/
theorem hidden_command_still_dispatched
    (c : cli_command) (v : Int) (cmds : List cli_command) (uid : Nat)
    (argvh argvd : List (List Char)) (ch cd : cli_command) (tok : List Char)
    (hconf : c.configure = some v) (hneg : v < 0)
    (hrech : args_is_unrecognized (argvh.getD 1 []) = false)
    (hfindh : find_command cmds (argvh.getD 1 []) = some ch)
    (htok : tok ∈ argvh.drop 2) (hhelp : is_help tok = true)
    (hhid : (configure_one ch).flags.hidden = true)
    (hlend : 2 ≤ argvd.length)
    (hrecd : args_is_unrecognized (argvd.getD 1 []) = false)
    (hfindd : find_command cmds (argvd.getD 1 []) = some cd)
    (hnohelp : (argvd.drop 2).any is_help = false)
    (hsud : (configure_one cd).flags.su_required = false ∨ uid = 0)
    (hhidd : (configure_one cd).flags.hidden = true)
    (hbare1 : (configure_one cd).options = none)
    (hbare2 : (configure_one cd).nspace = none) :
    (configure_one c).flags.hidden = true
      ∧ args_parse cmds uid argvh = (.helpCommand false, [])
      ∧ args_parse cmds uid argvd = run_command (configure_one cd) := by
  refine ⟨?_, ?_, ?_⟩
  · simp only [configure_one, hconf]
    rw [if_pos hneg]
  · rw [args_parse_help_branch cmds uid argvh ch tok hrech hfindh htok hhelp, hhid]
    rfl
  · have hsub : ((configure_one cd).flags.su_required && !(uid == 0)) = false := by
      rcases hsud with hx | hx
      · simp [hx]
      · simp [hx]
    unfold args_parse
    rw [if_neg (by omega : ¬ argvd.length < 2)]
    simp only [hrecd, hfindd, hnohelp, hsub, hbare1, hbare2,
      Bool.false_eq_true, if_false]

/-- C10 witness: a bare command hidden by its configure hook returning a
negative status is hidden after configuration, answers a help request
with success while rendering nothing, and is still dispatched to
run_command when invoked without help tokens. -/
theorem hidden_command_still_dispatched_witness :
    (configure_one fix_cmd_bare_hidden).flags.hidden = true
      ∧ args_parse [fix_cmd_bare_hidden] 0
          ["sedcli".toList, "--bare".toList, "--help".toList]
          = (.helpCommand false, [])
      ∧ args_parse [fix_cmd_bare_hidden] 0 ["sedcli".toList, "--bare".toList]
          = run_command (configure_one fix_cmd_bare_hidden) :=
  hidden_command_still_dispatched fix_cmd_bare_hidden (-1) [fix_cmd_bare_hidden] 0
    ["sedcli".toList, "--bare".toList, "--help".toList]
    ["sedcli".toList, "--bare".toList]
    fix_cmd_bare_hidden fix_cmd_bare_hidden "--help".toList
    rfl (by decide) (by decide) rfl (by decide) (by decide) rfl
    (by decide) (by decide) rfl (by decide) (Or.inr rfl) rfl rfl rfl

end Argp
